import Mathlib

/-!
Verification of the TripIt entity/edge type schema
(`examples/tripit/tripit_entity_types.py`).

The Python file declares Pydantic models (shape descriptors) for entity
types and edge (relationship) types, together with three configuration
tables: `ENTITY_TYPES`, `EDGE_TYPES` and `EDGE_TYPE_MAP`.

We embed each Pydantic model as a `Shape`: the list of its declared
fields, each with its name, its semantic type and whether it is required.
In the source every field is declared `T | None = Field(None, ...)`,
i.e. optional with default `None`; the human-readable description strings
carry no semantics and are omitted.  The tables are embedded as
association lists in source order (the Python dict literals have pairwise
distinct keys, so an ordered association list represents them exactly).
-/

namespace TripIt

/-- Semantic types a field may carry in the Pydantic models.  The
embedding keeps more constructors than the schema actually uses
(`int`, `datetime`) so that the statement "every declared field is a
string, boolean or float" is a fact about the data, not about the type. -/
inductive SemType where
  | str
  | bool
  | float
  | int
  | datetime
deriving DecidableEq, Repr

/-- One declared field of a Pydantic model: name, semantic type, and
whether the field is required (`Field(...)` without a `None` default). -/
structure FieldSpec where
  name : String
  ftype : SemType
  required : Bool
deriving DecidableEq, Repr

/-- A shape descriptor: the ordered list of declared fields of a model. -/
structure Shape where
  fields : List FieldSpec
deriving DecidableEq, Repr

/-- Shorthand for the ubiquitous `x: str | None = Field(None, ...)`. -/
def optStr (n : String) : FieldSpec := ⟨n, SemType.str, false⟩

/-- Shorthand for `x: bool | None = Field(None, ...)`. -/
def optBool (n : String) : FieldSpec := ⟨n, SemType.bool, false⟩

/-- Shorthand for `x: float | None = Field(None, ...)`. -/
def optFloat (n : String) : FieldSpec := ⟨n, SemType.float, false⟩

-- Entity type shapes -------------------------------------------------------

def Trip : Shape := ⟨[optStr "start_date", optStr "end_date",
  optStr "destination", optBool "is_private"]⟩

def Flight : Shape := ⟨[optStr "airline_code", optStr "flight_number",
  optStr "departure_airport", optStr "arrival_airport",
  optStr "departure_time", optStr "arrival_time", optStr "service_class",
  optStr "aircraft_type", optStr "seat_assignment",
  optStr "confirmation_number", optStr "record_locator"]⟩

def Lodging : Shape := ⟨[optStr "check_in_date", optStr "check_out_date",
  optStr "room_type", optStr "number_of_rooms", optStr "number_of_guests",
  optStr "confirmation_number"]⟩

def CarRental : Shape := ⟨[optStr "pickup_date", optStr "dropoff_date",
  optStr "car_type", optStr "car_description", optStr "pickup_location",
  optStr "dropoff_location", optStr "confirmation_number"]⟩

def RailJourney : Shape := ⟨[optStr "carrier", optStr "train_number",
  optStr "departure_station", optStr "arrival_station",
  optStr "departure_time", optStr "arrival_time", optStr "service_class",
  optStr "seat_assignment", optStr "confirmation_number"]⟩

def Cruise : Shape := ⟨[optStr "ship_name", optStr "cabin_number",
  optStr "cabin_type", optStr "departure_date", optStr "return_date",
  optStr "departure_port", optStr "confirmation_number"]⟩

def GroundTransport : Shape := ⟨[optStr "transport_type", optStr "carrier",
  optStr "pickup_location", optStr "dropoff_location",
  optStr "pickup_time", optStr "confirmation_number"]⟩

def Restaurant : Shape := ⟨[optStr "cuisine", optStr "reservation_time",
  optStr "party_size", optStr "price_range", optStr "dress_code",
  optStr "confirmation_number"]⟩

def Activity : Shape := ⟨[optStr "activity_type", optStr "start_time",
  optStr "end_time", optStr "venue", optStr "confirmation_number"]⟩

def Traveler : Shape := ⟨[optStr "first_name", optStr "last_name",
  optStr "email", optStr "frequent_traveler_number",
  optStr "meal_preference", optStr "seat_preference"]⟩

def Airport : Shape := ⟨[optStr "iata_code", optStr "city",
  optStr "country", optFloat "latitude", optFloat "longitude"]⟩

def City : Shape := ⟨[optStr "country", optStr "state_or_region",
  optStr "timezone"]⟩

def Venue : Shape := ⟨[optStr "venue_type", optStr "address",
  optStr "phone", optStr "url", optFloat "latitude", optFloat "longitude"]⟩

def Airline : Shape := ⟨[optStr "iata_code", optStr "alliance"]⟩

def TransportProvider : Shape := ⟨[optStr "provider_type", optStr "phone",
  optStr "url"]⟩

def LoyaltyProgram : Shape := ⟨[optStr "program_type", optStr "balance",
  optStr "elite_status"]⟩

-- Edge type shapes ---------------------------------------------------------

def PartOfTrip : Shape := ⟨[]⟩

def DepartsFrom : Shape := ⟨[optStr "scheduled_time", optStr "terminal",
  optStr "gate"]⟩

def ArrivesAt : Shape := ⟨[optStr "scheduled_time", optStr "terminal",
  optStr "gate", optStr "baggage_claim"]⟩

def LocatedAt : Shape := ⟨[]⟩

def LocatedIn : Shape := ⟨[]⟩

def OperatedBy : Shape := ⟨[optStr "operating_code"]⟩

def BookedWith : Shape := ⟨[optStr "booking_site",
  optStr "booking_reference", optStr "booking_date", optStr "total_cost"]⟩

def TravelerOn : Shape := ⟨[optStr "role", optStr "ticket_number"]⟩

def ConnectsTo : Shape := ⟨[optStr "connection_time",
  optStr "connection_airport"]⟩

def MemberOf : Shape := ⟨[optStr "member_number", optStr "elite_status"]⟩

def OfferedBy : Shape := ⟨[]⟩

def DestinationOf : Shape := ⟨[optStr "role"]⟩

def PortOfCall : Shape := ⟨[optStr "arrival_date", optStr "departure_date"]⟩

def InvitedTo : Shape := ⟨[optBool "is_read_only", optBool "is_traveler"]⟩

-- Configuration tables -----------------------------------------------------

/-- `ENTITY_TYPES`: entity-type name → shape descriptor, in source order. -/
def ENTITY_TYPES : List (String × Shape) := [
  ("Trip", Trip),
  ("Flight", Flight),
  ("Lodging", Lodging),
  ("CarRental", CarRental),
  ("RailJourney", RailJourney),
  ("Cruise", Cruise),
  ("GroundTransport", GroundTransport),
  ("Restaurant", Restaurant),
  ("Activity", Activity),
  ("Traveler", Traveler),
  ("Airport", Airport),
  ("City", City),
  ("Venue", Venue),
  ("Airline", Airline),
  ("TransportProvider", TransportProvider),
  ("LoyaltyProgram", LoyaltyProgram)]

/-- `EDGE_TYPES`: relationship-type name → shape descriptor, in source
order. -/
def EDGE_TYPES : List (String × Shape) := [
  ("PART_OF_TRIP", PartOfTrip),
  ("DEPARTS_FROM", DepartsFrom),
  ("ARRIVES_AT", ArrivesAt),
  ("LOCATED_AT", LocatedAt),
  ("LOCATED_IN", LocatedIn),
  ("OPERATED_BY", OperatedBy),
  ("BOOKED_WITH", BookedWith),
  ("TRAVELER_ON", TravelerOn),
  ("CONNECTS_TO", ConnectsTo),
  ("MEMBER_OF", MemberOf),
  ("OFFERED_BY", OfferedBy),
  ("DESTINATION_OF", DestinationOf),
  ("PORT_OF_CALL", PortOfCall),
  ("INVITED_TO", InvitedTo)]

/-- `EDGE_TYPE_MAP`: (source-type-name, target-type-name) → ordered list
of permitted relationship-type names, in source order. -/
def EDGE_TYPE_MAP : List ((String × String) × List String) := [
  (("Flight", "Trip"), ["PART_OF_TRIP"]),
  (("Lodging", "Trip"), ["PART_OF_TRIP"]),
  (("CarRental", "Trip"), ["PART_OF_TRIP"]),
  (("RailJourney", "Trip"), ["PART_OF_TRIP"]),
  (("Cruise", "Trip"), ["PART_OF_TRIP"]),
  (("GroundTransport", "Trip"), ["PART_OF_TRIP"]),
  (("Restaurant", "Trip"), ["PART_OF_TRIP"]),
  (("Activity", "Trip"), ["PART_OF_TRIP"]),
  (("Flight", "Airport"), ["DEPARTS_FROM", "ARRIVES_AT"]),
  (("RailJourney", "Venue"), ["DEPARTS_FROM", "ARRIVES_AT"]),
  (("Cruise", "Venue"), ["DEPARTS_FROM", "ARRIVES_AT", "PORT_OF_CALL"]),
  (("GroundTransport", "Venue"), ["DEPARTS_FROM", "ARRIVES_AT"]),
  (("CarRental", "Venue"), ["DEPARTS_FROM", "ARRIVES_AT"]),
  (("Lodging", "Venue"), ["LOCATED_AT"]),
  (("Restaurant", "Venue"), ["LOCATED_AT"]),
  (("Activity", "Venue"), ["LOCATED_AT"]),
  (("Airport", "City"), ["LOCATED_IN"]),
  (("Venue", "City"), ["LOCATED_IN"]),
  (("Trip", "City"), ["DESTINATION_OF"]),
  (("Cruise", "City"), ["PORT_OF_CALL"]),
  (("Flight", "Airline"), ["OPERATED_BY"]),
  (("RailJourney", "TransportProvider"), ["OPERATED_BY"]),
  (("Cruise", "TransportProvider"), ["OPERATED_BY"]),
  (("GroundTransport", "TransportProvider"), ["OPERATED_BY"]),
  (("CarRental", "TransportProvider"), ["OPERATED_BY"]),
  (("Flight", "Entity"), ["BOOKED_WITH"]),
  (("Lodging", "Entity"), ["BOOKED_WITH"]),
  (("CarRental", "Entity"), ["BOOKED_WITH"]),
  (("RailJourney", "Entity"), ["BOOKED_WITH"]),
  (("Cruise", "Entity"), ["BOOKED_WITH"]),
  (("GroundTransport", "Entity"), ["BOOKED_WITH"]),
  (("Restaurant", "Entity"), ["BOOKED_WITH"]),
  (("Activity", "Entity"), ["BOOKED_WITH"]),
  (("Traveler", "Flight"), ["TRAVELER_ON"]),
  (("Traveler", "Lodging"), ["TRAVELER_ON"]),
  (("Traveler", "CarRental"), ["TRAVELER_ON"]),
  (("Traveler", "RailJourney"), ["TRAVELER_ON"]),
  (("Traveler", "Cruise"), ["TRAVELER_ON"]),
  (("Traveler", "GroundTransport"), ["TRAVELER_ON"]),
  (("Traveler", "Restaurant"), ["TRAVELER_ON"]),
  (("Traveler", "Activity"), ["TRAVELER_ON"]),
  (("Traveler", "Trip"), ["INVITED_TO"]),
  (("Flight", "Flight"), ["CONNECTS_TO"]),
  (("RailJourney", "RailJourney"), ["CONNECTS_TO"]),
  (("GroundTransport", "GroundTransport"), ["CONNECTS_TO"]),
  (("Traveler", "LoyaltyProgram"), ["MEMBER_OF"]),
  (("LoyaltyProgram", "Airline"), ["OFFERED_BY"]),
  (("LoyaltyProgram", "TransportProvider"), ["OFFERED_BY"])]

/-- Dictionary lookup on `EDGE_TYPE_MAP` (Python `EDGE_TYPE_MAP.get(k)`):
the value at the first (and only) matching key, or `none`. -/
def edgeTypeMapGet (k : String × String) : Option (List String) :=
  (EDGE_TYPE_MAP.find? fun e => e.1 == k).map Prod.snd

/-- The keys of `ENTITY_TYPES`. -/
def entityTypeNames : List String := ENTITY_TYPES.map Prod.fst

/-- The keys of `EDGE_TYPES`. -/
def edgeTypeNames : List String := EDGE_TYPES.map Prod.fst

/-- The reservations/activities domain of entity types as enumerated in
the specification (§4.1 domain (a)). -/
def reservationActivityTypes : List String :=
  ["Trip", "Flight", "Lodging", "CarRental", "RailJourney", "Cruise",
   "GroundTransport", "Restaurant", "Activity"]

/-- A model instance assigning values only to the fields in `assigned`
is valid iff every required field of the shape is among them.  With no
required fields, the empty instance (`assigned = []`) is valid. -/
def instanceValid (s : Shape) (assigned : List String) : Bool :=
  s.fields.all fun f => !f.required || assigned.contains f.name

/-- The semantic types the schema is allowed to use per the data model:
string, boolean, or floating-point number. -/
def primitiveType : SemType → Bool
  | SemType.str => true
  | SemType.bool => true
  | SemType.float => true
  | _ => false

/-- C1: every value of `EDGE_TYPE_MAP` is a non-empty list, and every
relationship-type name in it is a key of `EDGE_TYPES`. -/
theorem edge_type_map_values_wellformed :
    ∀ e ∈ EDGE_TYPE_MAP,
      e.2 ≠ [] ∧ (e.2.all fun r => edgeTypeNames.contains r) = true := by
  decide

/-- Witness for C1 at the (Cruise, Venue) entry. -/
theorem edge_type_map_values_wellformed_w :
    (["DEPARTS_FROM", "ARRIVES_AT", "PORT_OF_CALL"] : List String) ≠ [] ∧
    ((["DEPARTS_FROM", "ARRIVES_AT", "PORT_OF_CALL"].all
      fun r => edgeTypeNames.contains r) = true) :=
  edge_type_map_values_wellformed
    (("Cruise", "Venue"), ["DEPARTS_FROM", "ARRIVES_AT", "PORT_OF_CALL"])
    (by decide)

/-- C2: the wildcard "Entity" is not a declared entity type, and both
elements of every `EDGE_TYPE_MAP` key are keys of `ENTITY_TYPES`, except
that an element may be the literal "Entity". -/
theorem edge_type_map_keys_declared :
    "Entity" ∉ entityTypeNames ∧
    ∀ e ∈ EDGE_TYPE_MAP,
      (e.1.1 ∈ entityTypeNames ∨ e.1.1 = "Entity") ∧
      (e.1.2 ∈ entityTypeNames ∨ e.1.2 = "Entity") := by
  decide

/-- Witness for C2 at the (Flight, Entity) entry. -/
theorem edge_type_map_keys_declared_w :
    ("Flight" ∈ entityTypeNames ∨ ("Flight" : String) = "Entity") ∧
    ("Entity" ∈ entityTypeNames ∨ ("Entity" : String) = "Entity") :=
  edge_type_map_keys_declared.2 (("Flight", "Entity"), ["BOOKED_WITH"])
    (by decide)

/-- C3: `ENTITY_TYPES` has exactly the sixteen listed keys, in source
order, and `EDGE_TYPES` has exactly 14 entries. -/
theorem table_sizes_and_entity_keys :
    ENTITY_TYPES.length = 16 ∧
    entityTypeNames =
      ["Trip", "Flight", "Lodging", "CarRental", "RailJourney", "Cruise",
       "GroundTransport", "Restaurant", "Activity", "Traveler", "Airport",
       "City", "Venue", "Airline", "TransportProvider", "LoyaltyProgram"] ∧
    EDGE_TYPES.length = 14 := by
  refine ⟨rfl, rfl, rfl⟩

/-- C4: the five sample lookups of the spec return exactly the stated
lists, and (Traveler, Trip) differs from (Traveler, Flight). -/
theorem edge_type_map_sample_lookups :
    edgeTypeMapGet ("Flight", "Trip") = some ["PART_OF_TRIP"] ∧
    edgeTypeMapGet ("Flight", "Airport") =
      some ["DEPARTS_FROM", "ARRIVES_AT"] ∧
    edgeTypeMapGet ("Cruise", "Venue") =
      some ["DEPARTS_FROM", "ARRIVES_AT", "PORT_OF_CALL"] ∧
    edgeTypeMapGet ("Traveler", "Trip") = some ["INVITED_TO"] ∧
    edgeTypeMapGet ("Traveler", "Flight") = some ["TRAVELER_ON"] ∧
    edgeTypeMapGet ("Traveler", "Trip") ≠
      edgeTypeMapGet ("Traveler", "Flight") := by
  refine ⟨rfl, rfl, rfl, rfl, rfl, by decide⟩

/-- C5 (counterexample to the claim as stated): "Trip" is in the
reservations/activities domain of §4.1, yet `EDGE_TYPE_MAP` has no key
(Trip, Trip). -/
theorem trip_to_trip_missing :
    "Trip" ∈ reservationActivityTypes ∧
    edgeTypeMapGet ("Trip", "Trip") = none := by
  decide

/-- C5 (amended): every reservations/activities type other than Trip
itself has an `EDGE_TYPE_MAP` entry targeting "Trip" whose value list
contains "PART_OF_TRIP". -/
theorem reservation_types_part_of_trip :
    ∀ t ∈ reservationActivityTypes, t ≠ "Trip" →
      (edgeTypeMapGet (t, "Trip")).isSome = true ∧
      "PART_OF_TRIP" ∈ (edgeTypeMapGet (t, "Trip")).getD [] := by
  decide

/-- Witness for amended C5 at t = "Flight". -/
theorem reservation_types_part_of_trip_w :
    (edgeTypeMapGet ("Flight", "Trip")).isSome = true ∧
    "PART_OF_TRIP" ∈ (edgeTypeMapGet ("Flight", "Trip")).getD [] :=
  reservation_types_part_of_trip "Flight" (by decide) (by decide)

/-- C6: the three same-type entries (Flight, Flight),
(RailJourney, RailJourney), (GroundTransport, GroundTransport) exist in
`EDGE_TYPE_MAP` carrying "CONNECTS_TO"; and "CONNECTS_TO" appears in an
entry's value list iff the key is a same-type pair, and iff the key is
one of those three — so the keys carrying it are exactly those three. -/
theorem connects_to_same_type_only :
    ((("Flight", "Flight"), ["CONNECTS_TO"]) ∈ EDGE_TYPE_MAP ∧
     (("RailJourney", "RailJourney"), ["CONNECTS_TO"]) ∈ EDGE_TYPE_MAP ∧
     (("GroundTransport", "GroundTransport"), ["CONNECTS_TO"]) ∈
       EDGE_TYPE_MAP) ∧
    ∀ e ∈ EDGE_TYPE_MAP,
      ("CONNECTS_TO" ∈ e.2 ↔ e.1.1 = e.1.2) ∧
      ("CONNECTS_TO" ∈ e.2 ↔
        e.1 ∈ [("Flight", "Flight"), ("RailJourney", "RailJourney"),
               ("GroundTransport", "GroundTransport")]) := by
  decide

/-- Witness for C6 at the (Flight, Flight) entry. -/
theorem connects_to_same_type_only_w :
    ("CONNECTS_TO" ∈ ["CONNECTS_TO"] ↔ ("Flight" : String) = "Flight") ∧
    ("CONNECTS_TO" ∈ ["CONNECTS_TO"] ↔
      (("Flight", "Flight") : String × String) ∈
        [("Flight", "Flight"), ("RailJourney", "RailJourney"),
         ("GroundTransport", "GroundTransport")]) :=
  connects_to_same_type_only.2 (("Flight", "Flight"), ["CONNECTS_TO"])
    (by decide)

/-- C7 (counterexample to the claim as stated): "Trip" is in the
reservations/activities domain of §4.1, yet `EDGE_TYPE_MAP` has no key
(Trip, Entity). -/
theorem trip_to_entity_missing :
    "Trip" ∈ reservationActivityTypes ∧
    edgeTypeMapGet ("Trip", "Entity") = none := by
  decide

/-- C7 (amended): every reservations/activities type other than Trip
itself has an `EDGE_TYPE_MAP` entry targeting the wildcard "Entity"
whose value list contains "BOOKED_WITH"; and "Entity" never occurs as
the source element of a key. -/
theorem booked_with_wildcard_target :
    (∀ t ∈ reservationActivityTypes, t ≠ "Trip" →
      (edgeTypeMapGet (t, "Entity")).isSome = true ∧
      "BOOKED_WITH" ∈ (edgeTypeMapGet (t, "Entity")).getD []) ∧
    ∀ e ∈ EDGE_TYPE_MAP, e.1.1 ≠ "Entity" := by
  decide

/-- Witness for amended C7 at t = "Flight". -/
theorem booked_with_wildcard_target_w :
    (edgeTypeMapGet ("Flight", "Entity")).isSome = true ∧
    "BOOKED_WITH" ∈ (edgeTypeMapGet ("Flight", "Entity")).getD [] :=
  booked_with_wildcard_target.1 "Flight" (by decide) (by decide)

/-- C8: in every entity-type and edge-type shape, every declared field is
optional (not required, default absent) and its semantic type is string,
boolean or float; hence the instance with zero fields set is valid. -/
theorem all_fields_optional_and_primitive :
    ∀ p ∈ ENTITY_TYPES ++ EDGE_TYPES,
      (p.2.fields.all fun f => !f.required && primitiveType f.ftype) = true ∧
      instanceValid p.2 [] = true := by
  decide

/-- Witness for C8 at the entity type Trip. -/
theorem all_fields_optional_and_primitive_w :
    (Trip.fields.all fun f => !f.required && primitiveType f.ftype) = true ∧
    instanceValid Trip [] = true :=
  all_fields_optional_and_primitive ("Trip", Trip) (by decide)

/-- C9: every key of `EDGE_TYPES` occurs in at least one value list of
`EDGE_TYPE_MAP`. -/
theorem every_edge_type_used :
    ∀ r ∈ edgeTypeNames,
      (EDGE_TYPE_MAP.any fun e => e.2.contains r) = true := by
  decide

/-- Witness for C9 at "CONNECTS_TO". -/
theorem every_edge_type_used_w :
    (EDGE_TYPE_MAP.any fun e => e.2.contains "CONNECTS_TO") = true :=
  every_edge_type_used "CONNECTS_TO" (by decide)

/-- C10: every key of `ENTITY_TYPES` occurs as the source or target
element of at least one `EDGE_TYPE_MAP` key. -/
theorem every_entity_type_mentioned :
    ∀ n ∈ entityTypeNames,
      (EDGE_TYPE_MAP.any fun e => e.1.1 == n || e.1.2 == n) = true := by
  decide

/-- Witness for C10 at "LoyaltyProgram". -/
theorem every_entity_type_mentioned_w :
    (EDGE_TYPE_MAP.any fun e =>
      e.1.1 == "LoyaltyProgram" || e.1.2 == "LoyaltyProgram") = true :=
  every_entity_type_mentioned "LoyaltyProgram" (by decide)

end TripIt
